import Mathlib

/-! # OTA_UPDATE_LAB3: the tasks of `main.cpp`

A shallow embedding of `src/YoloUNO_PlatformIO-OTA_update/src/main.cpp`.

* Every iteration of the loop ("cycle") of `mqttTask`, `sensorTask` and `otaTask` is a
  function from the global flags, and the values the library calls return in that
  cycle, to the new flags and the list of calls the cycle makes, in program order.
* The four loops (`wifiTask` with `reconnect` and `InitWiFi` included) are also given
  as one interleaved machine with a program point per task and the mutex `tbMutex`,
  at most one call on the session or the mutex per step.

Library calls (`tb.*`, `ota.*`, `WiFi.*`, `dht.*`, `millis`, FreeRTOS) are not part of
the repository: their return values are inputs of the model, and the calls themselves
are recorded as events.
-/

namespace OtaLab

/-! ## Machine values -/

/-- Number of values of a `uint32_t`. -/
def UINT32_MOD : Nat := 2 ^ 32

/-- Conversion of a signed value to `uint32_t` (the usual arithmetic conversion). -/
def toU32 (i : Int) : Nat := (i % (UINT32_MOD : Int)).toNat

/-- Subtraction on `uint32_t`: `a - b` wraps around modulo `2 ^ 32`. -/
def u32sub (a b : Nat) : Nat := (a % UINT32_MOD + UINT32_MOD - b % UINT32_MOD) % UINT32_MOD

/-- A `float`, by its IEEE-754 single precision bit pattern. -/
structure Float32 where
  bits : Nat
  deriving DecidableEq

/-- The test `isnan(x)`: all exponent bits set and a non-zero fraction. -/
def isnan (x : Float32) : Bool :=
  (x.bits / 2 ^ 23) % 2 ^ 8 == 255 && x.bits % 2 ^ 23 != 0

/-! ## Constants of `main.cpp` -/

/-- Line 33: `constexpr int16_t TELEMETRY_SEND_INTERVAL = 5000U;`. -/
def TELEMETRY_SEND_INTERVAL : Int := 5000

/-- Line 37. -/
def CURRENT_FIRMWARE_TITLE : String := "RTOTA"

/-- Line 38. -/
def CURRENT_FIRMWARE_VERSION : String := "2"

/-- Line 40. -/
def FIRMWARE_FAILURE_RETRIES : Nat := 12

/-- Line 43. -/
def FIRMWARE_PACKET_SIZE : Nat := 4096

/-- Line 45. -/
def WIFI_SSID : String := "HCMUT09"

/-- Line 46. -/
def WIFI_PASSWORD : String := "12345678"

/-- Line 47. -/
def TOKEN : String := "wKVmVLxdNixrgQkwzEup"

/-- Line 48. -/
def THINGSBOARD_SERVER : String := "app.coreiot.io"

/-- Line 49. -/
def TEMPERATURE_KEY : String := "temperature"

/-- Line 50. -/
def HUMIDITY_KEY : String := "humidity"

/-- Line 51. -/
def THINGSBOARD_PORT : Nat := 1883

/-- Line 54. -/
def SERIAL_DEBUG_BAUD : Nat := 115200

/-- Line 63. -/
def WIFI_TASK_STACK_SIZE : Nat := 4096

/-- Line 64. -/
def MQTT_TASK_STACK_SIZE : Nat := 8192

/-- Line 65. -/
def SENSOR_TASK_STACK_SIZE : Nat := 2048

/-- Line 66. -/
def OTA_TASK_STACK_SIZE : Nat := 8192

/-- Line 67. -/
def WIFI_TASK_PRIORITY : Nat := 5

/-- Line 68. -/
def MQTT_TASK_PRIORITY : Nat := 4

/-- Line 69. -/
def SENSOR_TASK_PRIORITY : Nat := 3

/-- Line 70. -/
def OTA_TASK_PRIORITY : Nat := 2

/-! ## Events and global state -/

/-- One call made by the program, with the value the call returned. -/
inductive Event where
  | serial (text : String)
  | serialReadings (temperature humidity : Float32)
  | serialProgress (current total : Nat)
  | xSemaphoreTake
  | xSemaphoreGive
  | vTaskDelay (ms : Nat)
  | delay (ms : Nat)
  | millis (now : Nat)
  | readHumidity (value : Float32)
  | readTemperature (value : Float32)
  | wifiRSSI (value : Int)
  | wifiBegin (ssid password : String)
  | wifiStatus (connected : Bool)
  | tbConnected (result : Bool)
  | tbConnect (server token : String) (port : Nat) (result : Bool)
  | sharedAttributesRequest (result : Bool)
  | sharedAttributesSubscribe (result : Bool)
  | tbLoop
  | sendTelemetryData (key : String) (value : Float32) (result : Bool)
  | sendAttributeData (key : String) (value : Int) (result : Bool)
  | firmwareSendInfo (title version : String) (result : Bool)
  | startFirmwareUpdate (title version : String) (retries packetSize : Nat) (result : Bool)
  | subscribeFirmwareUpdate (title version : String) (retries packetSize : Nat) (result : Bool)
  | espRestart
  | serialBegin (baud : Nat)
  | dhtBegin
  | xSemaphoreCreateMutex
  | xTaskCreate (name : String) (stackSize priority : Nat)
  deriving DecidableEq

/-- The status flags of lines 95-100. -/
structure Globals where
  shared_update_subscribed : Bool
  currentFWSent : Bool
  updateRequestSent : Bool
  requestedShared : Bool
  wifiConnected : Bool
  mqttConnected : Bool
  deriving DecidableEq

/-- The flags as initialised at lines 95-100: all `false`. -/
def Globals.start : Globals :=
  { shared_update_subscribed := false, currentFWSent := false, updateRequestSent := false,
    requestedShared := false, wifiConnected := false, mqttConnected := false }

/-! ## Classification of events -/

/-- A publish on the session: `tb.sendTelemetryData` or `tb.sendAttributeData`. -/
def Event.isPublish : Event → Bool
  | .sendTelemetryData _ _ _ => true
  | .sendAttributeData _ _ _ => true
  | _ => false

/-- An operation on `tbMutex`. -/
def Event.isLockOp : Event → Bool
  | .xSemaphoreTake => true
  | .xSemaphoreGive => true
  | _ => false

/-- A read of the DHT sensor. -/
def Event.isSensorRead : Event → Bool
  | .readHumidity _ => true
  | .readTemperature _ => true
  | _ => false

/-- A call of the firmware update handshake on `ota`. -/
def Event.isOtaCall : Event → Bool
  | .firmwareSendInfo _ _ _ => true
  | .startFirmwareUpdate _ _ _ _ _ => true
  | .subscribeFirmwareUpdate _ _ _ _ _ => true
  | _ => false

/-- The shared attribute request or the shared attribute subscription. -/
def Event.isAttributeCall : Event → Bool
  | .sharedAttributesRequest _ => true
  | .sharedAttributesSubscribe _ => true
  | _ => false

/-- The shared attribute request. -/
def Event.isAttributeRequest : Event → Bool
  | .sharedAttributesRequest _ => true
  | _ => false

/-- The call `xSemaphoreTake(tbMutex, portMAX_DELAY)`. -/
def Event.isTake : Event → Bool
  | .xSemaphoreTake => true
  | _ => false

/-- The call `xSemaphoreGive(tbMutex)`. -/
def Event.isGive : Event → Bool
  | .xSemaphoreGive => true
  | _ => false

/-- The call `esp_restart()`. -/
def Event.isRestart : Event → Bool
  | .espRestart => true
  | _ => false

/-- A call on the shared session object: `tb.*`, `attr_request.*`, `shared_update.*`
and `ota.*`. -/
def Event.isSessionCall : Event → Bool
  | .tbConnected _ => true
  | .tbConnect _ _ _ _ => true
  | .sharedAttributesRequest _ => true
  | .sharedAttributesSubscribe _ => true
  | .tbLoop => true
  | .sendTelemetryData _ _ _ => true
  | .sendAttributeData _ _ _ => true
  | .firmwareSendInfo _ _ _ => true
  | .startFirmwareUpdate _ _ _ _ _ => true
  | .subscribeFirmwareUpdate _ _ _ _ _ => true
  | _ => false

/-! ## `sensorTask` (lines 230-265) -/

/-- Values returned to `sensorTask` by the library calls of one cycle. -/
structure SensorEnv where
  /-- Result of `millis()` at line 241. -/
  millisCheck : Nat
  /-- Result of `dht.readHumidity()` at line 243. -/
  humidity : Float32
  /-- Result of `dht.readTemperature()` at line 244. -/
  temperature : Float32
  /-- Results of the three sends of lines 253-255 (the code ignores them). -/
  sentTemperature : Bool
  sentHumidity : Bool
  /-- Result of `WiFi.RSSI()` at line 255. -/
  rssi : Int
  sentRssi : Bool
  /-- Result of `millis()` at line 260. -/
  millisStamp : Nat

/-- The test of line 241: `millis() - lastTelemetrySend > TELEMETRY_SEND_INTERVAL`,
with the subtraction in `uint32_t` and the interval converted to `uint32_t`. -/
def sendDue (now lastTelemetrySend : Nat) : Bool :=
  decide (u32sub now lastTelemetrySend > toU32 TELEMETRY_SEND_INTERVAL)

/-- Lines 246-258: the body that follows the two sensor reads. `xSemaphoreTake` is
called with `portMAX_DELAY`, so it returns only once the mutex is obtained and the
test `== pdTRUE` holds. -/
def sensorPublish (e : SensorEnv) : List Event :=
  if isnan e.humidity || isnan e.temperature then
    [.serial "Failed to read from DHT sensor!"]
  else
    [.serialReadings e.temperature e.humidity,
     .xSemaphoreTake,
     .sendTelemetryData TEMPERATURE_KEY e.temperature e.sentTemperature,
     .sendTelemetryData HUMIDITY_KEY e.humidity e.sentHumidity,
     .wifiRSSI e.rssi,
     .sendAttributeData "rssi" e.rssi e.sentRssi,
     .xSemaphoreGive]

/-- One iteration of the `while (true)` of `sensorTask`: the new value of the local
`lastTelemetrySend` and the calls made. -/
def sensorTaskCycle (g : Globals) (lastTelemetrySend : Nat) (e : SensorEnv) :
    Nat × List Event :=
  if !g.mqttConnected then
    (lastTelemetrySend, [.vTaskDelay 1000])
  else if sendDue e.millisCheck lastTelemetrySend then
    (e.millisStamp % UINT32_MOD,
      [.millis e.millisCheck, .readHumidity e.humidity, .readTemperature e.temperature]
        ++ sensorPublish e
        ++ [.millis e.millisStamp, .vTaskDelay 1000])
  else
    (lastTelemetrySend, [.millis e.millisCheck, .vTaskDelay 1000])

/-! ## `mqttTask` (lines 179-227) -/

/-- Values returned to `mqttTask` by the library calls of one cycle. -/
structure MqttEnv where
  /-- Result of `tb.connected()` at line 188. -/
  connected : Bool
  /-- Result of `tb.connect(...)` at line 192. -/
  connectOk : Bool
  /-- Result of `attr_request.Shared_Attributes_Request(...)` at line 203. -/
  requestOk : Bool
  /-- Result of `shared_update.Shared_Attributes_Subscribe(...)` at line 212. -/
  subscribeOk : Bool
  deriving DecidableEq

/-- The text printed at line 191. -/
def connectingText : String :=
  "Connecting to: (" ++ THINGSBOARD_SERVER ++ ") with token (" ++ TOKEN ++ ")"

/-- Lines 200-207: the shared attribute request. -/
def mqttRequest (g : Globals) (requestOk : Bool) : Globals × List Event :=
  if !g.requestedShared then
    ({ g with requestedShared := requestOk },
      [.serial "Requesting shared attributes...", .sharedAttributesRequest requestOk]
        ++ (if !requestOk then [.serial "Failed to request shared attributes"] else []))
  else
    (g, [])

/-- Lines 209-217: the shared attribute subscription. -/
def mqttSubscribe (g : Globals) (subscribeOk : Bool) : Globals × List Event :=
  if !g.shared_update_subscribed then
    ({ g with shared_update_subscribed := true },
      [.serial "Subscribing for shared attribute updates...",
       .sharedAttributesSubscribe subscribeOk]
        ++ (if !subscribeOk then [.serial "Failed to subscribe for shared attribute updates"]
            else [])
        ++ [.serial "Subscribe done"])
  else
    (g, [])

/-- One iteration of the `while (true)` of `mqttTask`: the new flags and the calls made.
`xSemaphoreTake` is called with `portMAX_DELAY`, so it returns only once the mutex is
obtained and the test `== pdTRUE` holds. -/
def mqttTaskCycle (g : Globals) (e : MqttEnv) : Globals × List Event :=
  if !g.wifiConnected then
    (g, [.vTaskDelay 1000])
  else if !e.connected then
    let g1 := { g with mqttConnected := e.connectOk }
    let opening : List Event :=
      [.xSemaphoreTake, .tbConnected false, .serial connectingText,
       .tbConnect THINGSBOARD_SERVER TOKEN THINGSBOARD_PORT e.connectOk]
    if !g1.mqttConnected then
      (g1, opening ++ [.serial "Failed to connect to MQTT", .xSemaphoreGive, .vTaskDelay 5000])
    else
      let r2 := mqttRequest g1 e.requestOk
      let r3 := mqttSubscribe r2.1 e.subscribeOk
      (r3.1, opening ++ r2.2 ++ r3.2 ++ [.tbLoop, .xSemaphoreGive, .vTaskDelay 100])
  else
    (g, [.xSemaphoreTake, .tbConnected true, .tbLoop, .xSemaphoreGive, .vTaskDelay 100])

/-! ## `otaTask` (lines 268-299) -/

/-- Values returned to `otaTask` by the library calls of one cycle. -/
structure OtaEnv where
  /-- Result of `ota.Firmware_Send_Info(...)` at line 278. -/
  sendInfoOk : Bool
  /-- Result of `ota.Start_Firmware_Update(callback)` at line 286. -/
  startOk : Bool
  /-- Result of `ota.Subscribe_Firmware_Update(callback)` at line 290. -/
  subscribeOk : Bool
  deriving DecidableEq

/-- Lines 277-279: the announcement of the current firmware. -/
def otaSendInfo (g : Globals) (sendInfoOk : Bool) : Globals × List Event :=
  if !g.currentFWSent then
    ({ g with currentFWSent := sendInfoOk },
      [.firmwareSendInfo CURRENT_FIRMWARE_TITLE CURRENT_FIRMWARE_VERSION sendInfoOk])
  else
    (g, [])

/-- Lines 281-292: the update request and the chunk subscription. -/
def otaRequest (g : Globals) (startOk subscribeOk : Bool) : Globals × List Event :=
  if !g.updateRequestSent then
    let starting : List Event :=
      [.serial CURRENT_FIRMWARE_TITLE, .serial CURRENT_FIRMWARE_VERSION,
       .serial "Firmware Update ...",
       .startFirmwareUpdate CURRENT_FIRMWARE_TITLE CURRENT_FIRMWARE_VERSION
          FIRMWARE_FAILURE_RETRIES FIRMWARE_PACKET_SIZE startOk]
    if startOk then
      ({ g with updateRequestSent := subscribeOk },
        starting ++ [.delay 500, .serial "Firmware Update Subscription...",
          .subscribeFirmwareUpdate CURRENT_FIRMWARE_TITLE CURRENT_FIRMWARE_VERSION
            FIRMWARE_FAILURE_RETRIES FIRMWARE_PACKET_SIZE subscribeOk])
    else
      ({ g with updateRequestSent := startOk }, starting)
  else
    (g, [])

/-- One iteration of the `while (true)` of `otaTask`: the new flags and the calls made. -/
def otaTaskCycle (g : Globals) (e : OtaEnv) : Globals × List Event :=
  if !g.mqttConnected then
    (g, [.vTaskDelay 1000])
  else
    let r1 := otaSendInfo g e.sendInfoOk
    let r2 := otaRequest r1.1 e.startOk e.subscribeOk
    (r2.1, [.xSemaphoreTake] ++ r1.2 ++ r2.2 ++ [.xSemaphoreGive, .vTaskDelay 10000])

/-! ## Callbacks (lines 72-158) -/

/-- Lines 72-74. -/
def requestTimedOut : List Event :=
  [.serial ("Attribute request timed out did not receive a response in (10000000) "
      ++ "microseconds. Ensure client is connected to the MQTT broker and that the keys "
      ++ "actually exist on the target device")]

/-- Lines 128-129. -/
def update_starting_callback : List Event := []

/-- Lines 131-138. -/
def finished_callback (success : Bool) : List Event :=
  if success then
    [.serial "Done, Reboot now", .espRestart]
  else
    [.serial "Downloading firmware failed"]

/-- Lines 140-142: prints the percentage `current * 100 / total`. -/
def progress_callback (current total : Nat) : List Event :=
  [.serialProgress current total]

/-- Lines 144-150: prints the serialised attribute document. -/
def processSharedAttributeUpdate (data : String) : List Event :=
  [.serial data]

/-- Lines 152-158: prints the serialised attribute document. -/
def processSharedAttributeRequest (data : String) : List Event :=
  [.serial data]

/-! ## `setup` and `loop` (lines 301-356) -/

/-- Lines 301-351: the serial port, the sensor, the mutex and the four tasks. -/
def setup : List Event :=
  [.serialBegin SERIAL_DEBUG_BAUD, .serial "RTOTA2", .delay 1000, .dhtBegin,
   .xSemaphoreCreateMutex,
   .xTaskCreate "WiFiTask" WIFI_TASK_STACK_SIZE WIFI_TASK_PRIORITY,
   .xTaskCreate "MQTTTask" MQTT_TASK_STACK_SIZE MQTT_TASK_PRIORITY,
   .xTaskCreate "SensorTask" SENSOR_TASK_STACK_SIZE SENSOR_TASK_PRIORITY,
   .xTaskCreate "OTATask" OTA_TASK_STACK_SIZE OTA_TASK_PRIORITY]

/-- Lines 353-356: one iteration of the Arduino `loop`. -/
def loop : List Event :=
  [.vTaskDelay 1000]

/-! ## Projections of a trace -/

/-- The events of a cycle that are publishes or operations on the mutex. -/
def lockAndPublish (evs : List Event) : List Event :=
  evs.filter (fun ev => ev.isPublish || ev.isLockOp)

/-- The sensor reads of a trace. -/
def sensorReads (evs : List Event) : List Event :=
  evs.filter Event.isSensorRead

/-- The publishes of a trace. -/
def publishes (evs : List Event) : List Event :=
  evs.filter Event.isPublish

/-- The calls of the firmware update handshake in a trace. -/
def otaCalls (evs : List Event) : List Event :=
  evs.filter Event.isOtaCall

/-- The attribute request and attribute subscription calls in a trace. -/
def attributeCalls (evs : List Event) : List Event :=
  evs.filter Event.isAttributeCall

/-- The shared attribute requests in a trace. -/
def requestCalls (evs : List Event) : List Event :=
  evs.filter Event.isAttributeRequest

/-- Number of `xSemaphoreTake` in a trace. -/
def takes (evs : List Event) : Nat :=
  (evs.filter Event.isTake).length

/-- Number of `xSemaphoreGive` in a trace. -/
def gives (evs : List Event) : Nat :=
  (evs.filter Event.isGive).length

/-- Number of `esp_restart` in a trace. -/
def restarts (evs : List Event) : Nat :=
  (evs.filter Event.isRestart).length

/-- Replays a trace of one task against its ownership of `tbMutex`, from `held`.
The result is `none` when the task takes the mutex while it holds it, gives it
while it does not hold it, or reaches a `vTaskDelay` while holding it. -/
def lockReplay : Bool → List Event → Option Bool
  | held, [] => some held
  | held, .xSemaphoreTake :: rest => if held then none else lockReplay true rest
  | held, .xSemaphoreGive :: rest => if held then lockReplay false rest else none
  | held, .vTaskDelay _ :: rest => if held then none else lockReplay false rest
  | held, _ :: rest => lockReplay held rest

/-- The last call of a trace is a `vTaskDelay`. -/
def endsInTaskDelay (evs : List Event) : Bool :=
  match evs.getLast? with
  | some (.vTaskDelay _) => true
  | _ => false

/-- A cycle that starts without the mutex takes it at most once, gives it as often
as it took it, never sleeps in `vTaskDelay` while holding it, and ends in a
`vTaskDelay` without it. -/
def LockDiscipline (evs : List Event) : Prop :=
  lockReplay false evs = some false ∧ takes evs ≤ 1 ∧ gives evs = takes evs ∧
    endsInTaskDelay evs = true

/-! ## Sample values -/

/-- The float 23.5 (`0x41BC0000`). -/
def f23_5 : Float32 := ⟨0x41BC0000⟩

/-- The float 60.2 (`0x4270CCCD`). -/
def f60_2 : Float32 := ⟨0x4270CCCD⟩

/-- A quiet NaN (`0x7FC00000`). -/
def fNaN : Float32 := ⟨0x7FC00000⟩

/-- A sample environment of `sensorTask`: readings 23.5 and 60.2. -/
def sampleSensorEnv : SensorEnv :=
  { millisCheck := 6000, humidity := f60_2, temperature := f23_5, sentTemperature := true,
    sentHumidity := true, rssi := -61, sentRssi := true, millisStamp := 6004 }

/-- Flags of a device whose connection and session are both up. -/
def onlineGlobals : Globals :=
  { Globals.start with wifiConnected := true, mqttConnected := true }

/-- Flags at the first cycle of `mqttTask` that connects: `wifiTask` has set
`wifiConnected`, every other flag still has its initial value `false`. -/
def wifiUpGlobals : Globals :=
  { Globals.start with wifiConnected := true }

/-- Results of the calls of a connecting `mqttTask` cycle in which `tb.connect` and the
attribute request succeed and `Shared_Attributes_Subscribe` returns false. -/
def failedSubscribeEnv : MqttEnv :=
  { connected := false, connectOk := true, requestOk := true, subscribeOk := false }

/-- Flags of a device that completed the attribute setup and the firmware handshake. -/
def allSetGlobals : Globals :=
  { shared_update_subscribed := true, currentFWSent := true, updateRequestSent := true,
    requestedShared := true, wifiConnected := true, mqttConnected := true }

/-! ## The interleaved machine -/

/-- The four tasks created in `setup` (lines 314-348). -/
inductive TaskId where
  | wifi
  | mqtt
  | sensor
  | ota
  deriving DecidableEq

/-- The mutex `tbMutex`. `xSemaphoreGive` does not check who gives: the mutex becomes
free whoever calls it. `holders` lists the tasks that took the mutex and have not
given it back. -/
structure Mutex where
  free : Bool
  holders : List TaskId
  deriving DecidableEq

/-- The call `xSemaphoreTake(tbMutex, portMAX_DELAY)` by task `t`: `none` while the mutex is
not free (the task stays blocked). -/
def Mutex.take (m : Mutex) (t : TaskId) : Option Mutex :=
  if m.free then some { free := false, holders := t :: m.holders } else none

/-- The call `xSemaphoreGive(tbMutex)` by task `t`. -/
def Mutex.give (m : Mutex) (t : TaskId) : Mutex :=
  { free := true, holders := m.holders.erase t }

/-- The two places where `wifiTask` calls `reconnect()`: line 164 and line 171. -/
inductive CallSite where
  | notConnected
  | lost
  deriving DecidableEq

/-- Program points of `wifiTask`, with `reconnect` and `InitWiFi` inlined. -/
inductive WifiPc where
  /-- Line 163. -/
  | loopHead
  /-- Line 117, in `reconnect()`. -/
  | reconnectStatus (site : CallSite)
  /-- Lines 103-105, in `InitWiFi()`. -/
  | initBegin (site : CallSite)
  /-- Line 106, the test of the `while`. -/
  | initStatus (site : CallSite)
  /-- Lines 108-109, the body of the `while`. -/
  | initDelay (site : CallSite)
  /-- Line 168. -/
  | checkStatus
  /-- Line 174. -/
  | sleep
  deriving DecidableEq

/-- Program points of `mqttTask`. -/
inductive MqttPc where
  /-- Line 182. -/
  | loopHead
  /-- Line 183. -/
  | idle
  /-- Line 187. -/
  | take
  /-- Line 188. -/
  | connected
  /-- Lines 191-194. -/
  | connect
  /-- Line 195. -/
  | giveFailed
  /-- Line 196. -/
  | sleepFailed
  /-- Lines 200-207. -/
  | request
  /-- Lines 209-217. -/
  | subscribe
  /-- Line 221. -/
  | loop
  /-- Line 222. -/
  | give
  /-- Line 225. -/
  | sleep
  deriving DecidableEq

/-- Program points of `sensorTask`. -/
inductive SensorPc where
  /-- Line 235. -/
  | loopHead
  /-- Line 236. -/
  | idle
  /-- Line 241. -/
  | check
  /-- Line 243. -/
  | readHumidity
  /-- Lines 244-250. -/
  | readTemperature
  /-- Line 252. -/
  | take
  /-- Line 253. -/
  | sendTemperature
  /-- Line 254. -/
  | sendHumidity
  /-- Line 255. -/
  | sendRssi
  /-- Line 256. -/
  | give
  /-- Line 260. -/
  | stamp
  /-- Line 263. -/
  | sleep
  deriving DecidableEq

/-- Program points of `otaTask`. -/
inductive OtaPc where
  /-- Line 271. -/
  | loopHead
  /-- Line 272. -/
  | idle
  /-- Line 276. -/
  | take
  /-- Lines 277-279. -/
  | sendInfo
  /-- Lines 281-286. -/
  | start
  /-- Lines 287-291. -/
  | subscribe
  /-- Line 294. -/
  | give
  /-- Line 297. -/
  | sleep
  deriving DecidableEq

/-- The state of the program: flags, mutex, the locals of `sensorTask` and one
program point per task. -/
structure Sys where
  g : Globals
  mutex : Mutex
  lastTelemetrySend : Nat
  humidity : Float32
  temperature : Float32
  wifiPc : WifiPc
  mqttPc : MqttPc
  sensorPc : SensorPc
  otaPc : OtaPc
  deriving DecidableEq

/-- The state when the scheduler starts: `setup` has created the mutex and the tasks. -/
def Sys.start : Sys :=
  { g := Globals.start, mutex := { free := true, holders := [] }, lastTelemetrySend := 0,
    humidity := ⟨0⟩, temperature := ⟨0⟩, wifiPc := .loopHead, mqttPc := .loopHead,
    sensorPc := .loopHead, otaPc := .loopHead }

/-- What the library call of one step returns. A step uses the field of its call. -/
structure Input where
  /-- The result of a call that returns `bool`; for `WiFi.status()`, whether it is
  `WL_CONNECTED`. -/
  flag : Bool
  /-- The result of `millis()`. -/
  time : Nat
  /-- The result of a sensor read. -/
  reading : Float32
  /-- The result of `WiFi.RSSI()`. -/
  rssi : Int
  deriving DecidableEq

/-- Where `reconnect()` returns to. -/
def WifiPc.afterReconnect : CallSite → WifiPc
  | .notConnected => .checkStatus
  | .lost => .sleep

/-- One step of `wifiTask` (lines 161-176, 102-126). -/
def wifiStep (s : Sys) (i : Input) : Sys × List Event :=
  match s.wifiPc with
  | .loopHead =>
    ({ s with wifiPc := if !s.g.wifiConnected then .reconnectStatus .notConnected
                        else .checkStatus }, [])
  | .reconnectStatus site =>
    if i.flag then
      ({ s with g := { s.g with wifiConnected := true },
                wifiPc := WifiPc.afterReconnect site }, [.wifiStatus i.flag])
    else
      ({ s with wifiPc := .initBegin site }, [.wifiStatus i.flag])
  | .initBegin site =>
    ({ s with wifiPc := .initStatus site },
      [.serial "Connecting to AP ...", .wifiBegin WIFI_SSID WIFI_PASSWORD])
  | .initStatus site =>
    if !i.flag then
      ({ s with wifiPc := .initDelay site }, [.wifiStatus i.flag])
    else
      ({ s with g := { s.g with wifiConnected := true },
                wifiPc := WifiPc.afterReconnect site },
        [.wifiStatus i.flag, .serial "Connected to AP"])
  | .initDelay site =>
    ({ s with wifiPc := .initStatus site }, [.delay 500, .serial "."])
  | .checkStatus =>
    if !i.flag then
      ({ s with g := { s.g with wifiConnected := false },
                wifiPc := .reconnectStatus .lost },
        [.wifiStatus i.flag, .serial "WiFi connection lost, reconnecting..."])
    else
      ({ s with wifiPc := .sleep }, [.wifiStatus i.flag])
  | .sleep =>
    ({ s with wifiPc := .loopHead }, [.vTaskDelay 10000])

/-- One step of `mqttTask` (lines 179-227); `none` while blocked on the mutex. -/
def mqttStep (s : Sys) (i : Input) : Option (Sys × List Event) :=
  match s.mqttPc with
  | .loopHead =>
    some ({ s with mqttPc := if !s.g.wifiConnected then .idle else .take }, [])
  | .idle =>
    some ({ s with mqttPc := .loopHead }, [.vTaskDelay 1000])
  | .take =>
    match s.mutex.take .mqtt with
    | some m => some ({ s with mutex := m, mqttPc := .connected }, [.xSemaphoreTake])
    | none => none
  | .connected =>
    some ({ s with mqttPc := if !i.flag then .connect else .loop }, [.tbConnected i.flag])
  | .connect =>
    let g1 := { s.g with mqttConnected := i.flag }
    let calls : List Event :=
      [.serial connectingText, .tbConnect THINGSBOARD_SERVER TOKEN THINGSBOARD_PORT i.flag]
    if !g1.mqttConnected then
      some ({ s with g := g1, mqttPc := .giveFailed },
        calls ++ [.serial "Failed to connect to MQTT"])
    else
      some ({ s with g := g1, mqttPc := .request }, calls)
  | .giveFailed =>
    some ({ s with mutex := s.mutex.give .mqtt, mqttPc := .sleepFailed }, [.xSemaphoreGive])
  | .sleepFailed =>
    some ({ s with mqttPc := .loopHead }, [.vTaskDelay 5000])
  | .request =>
    let r := mqttRequest s.g i.flag
    some ({ s with g := r.1, mqttPc := .subscribe }, r.2)
  | .subscribe =>
    let r := mqttSubscribe s.g i.flag
    some ({ s with g := r.1, mqttPc := .loop }, r.2)
  | .loop =>
    some ({ s with mqttPc := .give }, [.tbLoop])
  | .give =>
    some ({ s with mutex := s.mutex.give .mqtt, mqttPc := .sleep }, [.xSemaphoreGive])
  | .sleep =>
    some ({ s with mqttPc := .loopHead }, [.vTaskDelay 100])

/-- One step of `sensorTask` (lines 230-265); `none` while blocked on the mutex. -/
def sensorStep (s : Sys) (i : Input) : Option (Sys × List Event) :=
  match s.sensorPc with
  | .loopHead =>
    some ({ s with sensorPc := if !s.g.mqttConnected then .idle else .check }, [])
  | .idle =>
    some ({ s with sensorPc := .loopHead }, [.vTaskDelay 1000])
  | .check =>
    some ({ s with sensorPc := if sendDue i.time s.lastTelemetrySend then .readHumidity
                               else .sleep }, [.millis i.time])
  | .readHumidity =>
    some ({ s with humidity := i.reading, sensorPc := .readTemperature },
      [.readHumidity i.reading])
  | .readTemperature =>
    if isnan s.humidity || isnan i.reading then
      some ({ s with temperature := i.reading, sensorPc := .stamp },
        [.readTemperature i.reading, .serial "Failed to read from DHT sensor!"])
    else
      some ({ s with temperature := i.reading, sensorPc := .take },
        [.readTemperature i.reading, .serialReadings i.reading s.humidity])
  | .take =>
    match s.mutex.take .sensor with
    | some m => some ({ s with mutex := m, sensorPc := .sendTemperature }, [.xSemaphoreTake])
    | none => none
  | .sendTemperature =>
    some ({ s with sensorPc := .sendHumidity },
      [.sendTelemetryData TEMPERATURE_KEY s.temperature i.flag])
  | .sendHumidity =>
    some ({ s with sensorPc := .sendRssi },
      [.sendTelemetryData HUMIDITY_KEY s.humidity i.flag])
  | .sendRssi =>
    some ({ s with sensorPc := .give },
      [.wifiRSSI i.rssi, .sendAttributeData "rssi" i.rssi i.flag])
  | .give =>
    some ({ s with mutex := s.mutex.give .sensor, sensorPc := .stamp }, [.xSemaphoreGive])
  | .stamp =>
    some ({ s with lastTelemetrySend := i.time % UINT32_MOD, sensorPc := .sleep },
      [.millis i.time])
  | .sleep =>
    some ({ s with sensorPc := .loopHead }, [.vTaskDelay 1000])

/-- One step of `otaTask` (lines 268-299); `none` while blocked on the mutex. -/
def otaStep (s : Sys) (i : Input) : Option (Sys × List Event) :=
  match s.otaPc with
  | .loopHead =>
    some ({ s with otaPc := if !s.g.mqttConnected then .idle else .take }, [])
  | .idle =>
    some ({ s with otaPc := .loopHead }, [.vTaskDelay 1000])
  | .take =>
    match s.mutex.take .ota with
    | some m => some ({ s with mutex := m, otaPc := .sendInfo }, [.xSemaphoreTake])
    | none => none
  | .sendInfo =>
    let r := otaSendInfo s.g i.flag
    some ({ s with g := r.1, otaPc := .start }, r.2)
  | .start =>
    if !s.g.updateRequestSent then
      some ({ s with g := { s.g with updateRequestSent := i.flag },
                     otaPc := if i.flag then .subscribe else .give },
        [.serial CURRENT_FIRMWARE_TITLE, .serial CURRENT_FIRMWARE_VERSION,
         .serial "Firmware Update ...",
         .startFirmwareUpdate CURRENT_FIRMWARE_TITLE CURRENT_FIRMWARE_VERSION
            FIRMWARE_FAILURE_RETRIES FIRMWARE_PACKET_SIZE i.flag])
    else
      some ({ s with otaPc := .give }, [])
  | .subscribe =>
    some ({ s with g := { s.g with updateRequestSent := i.flag }, otaPc := .give },
      [.delay 500, .serial "Firmware Update Subscription...",
       .subscribeFirmwareUpdate CURRENT_FIRMWARE_TITLE CURRENT_FIRMWARE_VERSION
          FIRMWARE_FAILURE_RETRIES FIRMWARE_PACKET_SIZE i.flag])
  | .give =>
    some ({ s with mutex := s.mutex.give .ota, otaPc := .sleep }, [.xSemaphoreGive])
  | .sleep =>
    some ({ s with otaPc := .loopHead }, [.vTaskDelay 10000])

/-- One step of task `t`; `none` when `t` is blocked on the mutex. -/
def step (s : Sys) (t : TaskId) (i : Input) : Option (Sys × List Event) :=
  match t with
  | .wifi => some (wifiStep s i)
  | .mqtt => mqttStep s i
  | .sensor => sensorStep s i
  | .ota => otaStep s i

/-- The state after a schedule: the scheduler picks a task for every step, and a task
that is blocked on the mutex does not move. -/
def run (s : Sys) : List (TaskId × Input) → Sys
  | [] => s
  | (t, i) :: rest =>
    match step s t i with
    | some r => run r.1 rest
    | none => run s rest

/-- The calls made along a schedule, each with the task that made it. -/
def runTrace (s : Sys) : List (TaskId × Input) → List (TaskId × Event)
  | [] => []
  | (t, i) :: rest =>
    match step s t i with
    | some r => r.2.map (fun ev => (t, ev)) ++ runTrace r.1 rest
    | none => runTrace s rest

/-- Task `t` alone runs the steps fed by `inputs`, none of them blocked: the final
state and the calls made. -/
def runSolo (t : TaskId) (s : Sys) : List Input → Option (Sys × List Event)
  | [] => some (s, [])
  | i :: rest =>
    match step s t i with
    | some r =>
      match runSolo t r.1 rest with
      | some r2 => some (r2.1, r.2 ++ r2.2)
      | none => none
    | none => none

/-- The program points of `mqttTask` from after its `xSemaphoreTake` up to its
`xSemaphoreGive`. -/
def MqttPc.critical : MqttPc → Bool
  | .connected | .connect | .giveFailed | .request | .subscribe | .loop | .give => true
  | _ => false

/-- The program points of `sensorTask` from after its `xSemaphoreTake` up to its
`xSemaphoreGive`. -/
def SensorPc.critical : SensorPc → Bool
  | .sendTemperature | .sendHumidity | .sendRssi | .give => true
  | _ => false

/-- The program points of `otaTask` from after its `xSemaphoreTake` up to its
`xSemaphoreGive`. -/
def OtaPc.critical : OtaPc → Bool
  | .sendInfo | .start | .subscribe | .give => true
  | _ => false

/-- Task `t` is between its `xSemaphoreTake` and its `xSemaphoreGive`. -/
def inCritical (s : Sys) : TaskId → Bool
  | .wifi => false
  | .mqtt => s.mqttPc.critical
  | .sensor => s.sensorPc.critical
  | .ota => s.otaPc.critical

/-- The tasks inside their critical section, in the order mqtt, sensor, ota. -/
def criticalTasks (s : Sys) : List TaskId :=
  [TaskId.mqtt, TaskId.sensor, TaskId.ota].filter (inCritical s)

/-- The invariant of the mutex: it is free exactly when no task is in its critical
section, at most one task is, and the holders are those tasks. -/
def MutexInv (s : Sys) : Prop :=
  s.mutex.holders = criticalTasks s ∧ s.mutex.free = (criticalTasks s).isEmpty ∧
    (criticalTasks s).length ≤ 1

/-- Replays the calls of a schedule against the holder of `tbMutex`, from holder `h`.
The result is `none` when a task takes the mutex while some task holds it, or gives
the mutex or calls the session object while it is not the holder; otherwise it is the
holder at the end. -/
def serialized : Option TaskId → List (TaskId × Event) → Option (Option TaskId)
  | h, [] => some h
  | h, (t, ev) :: rest =>
    if ev.isTake then
      if h = none then serialized (some t) rest else none
    else if ev.isGive then
      if h = some t then serialized none rest else none
    else if ev.isSessionCall then
      if h = some t then serialized h rest else none
    else
      serialized h rest

/-! ## The inputs of one cycle of a task in the machine -/

/-- The input of a step that makes no call or whose call returns nothing. -/
def Input.idle : Input := { flag := false, time := 0, reading := ⟨0⟩, rssi := 0 }

/-- The input of a step whose call returns `b`. -/
def Input.ofFlag (b : Bool) : Input := { Input.idle with flag := b }

/-- The input of a step that reads `millis()`. -/
def Input.ofTime (now : Nat) : Input := { Input.idle with time := now }

/-- The input of a step that reads the sensor. -/
def Input.ofReading (x : Float32) : Input := { Input.idle with reading := x }

/-- The inputs of the steps of one `mqttTask` cycle whose calls return `e`. -/
def mqttInputs (g : Globals) (e : MqttEnv) : List Input :=
  if !g.wifiConnected then
    [.idle, .idle]
  else if e.connected then
    [.idle, .idle, .ofFlag true, .idle, .idle, .idle]
  else if !e.connectOk then
    [.idle, .idle, .ofFlag false, .ofFlag false, .idle, .idle]
  else
    [.idle, .idle, .ofFlag false, .ofFlag true, .ofFlag e.requestOk, .ofFlag e.subscribeOk,
     .idle, .idle, .idle]

/-- The inputs of the steps of one `sensorTask` cycle whose calls return `e`. -/
def sensorInputs (g : Globals) (lastTelemetrySend : Nat) (e : SensorEnv) : List Input :=
  if !g.mqttConnected then
    [.idle, .idle]
  else if !sendDue e.millisCheck lastTelemetrySend then
    [.idle, .ofTime e.millisCheck, .idle]
  else if isnan e.humidity || isnan e.temperature then
    [.idle, .ofTime e.millisCheck, .ofReading e.humidity, .ofReading e.temperature,
     .ofTime e.millisStamp, .idle]
  else
    [.idle, .ofTime e.millisCheck, .ofReading e.humidity, .ofReading e.temperature,
     .idle, .ofFlag e.sentTemperature, .ofFlag e.sentHumidity,
     { Input.idle with rssi := e.rssi, flag := e.sentRssi }, .idle,
     .ofTime e.millisStamp, .idle]

/-- The inputs of the steps of one `otaTask` cycle whose calls return `e`. -/
def otaInputs (g : Globals) (e : OtaEnv) : List Input :=
  if !g.mqttConnected then
    [.idle, .idle]
  else if !g.updateRequestSent && e.startOk then
    [.idle, .idle, .ofFlag e.sendInfoOk, .ofFlag true, .ofFlag e.subscribeOk, .idle, .idle]
  else
    [.idle, .idle, .ofFlag e.sendInfoOk, .ofFlag e.startOk, .idle, .idle]

/-- A schedule: `wifiTask` finds the association up, `mqttTask` opens the session and
runs its cycle up to the give, `sensorTask` reads 60.2 and 23.5 and has to wait for the
mutex, `otaTask` comes last. -/
def sampleSchedule : List (TaskId × Input) :=
  [(.wifi, .idle), (.wifi, .ofFlag true), (.wifi, .ofFlag true),
   (.mqtt, .idle), (.mqtt, .idle), (.mqtt, .ofFlag false), (.mqtt, .ofFlag true),
   (.sensor, .idle), (.sensor, .ofTime 6000), (.sensor, .ofReading f60_2),
   (.sensor, .ofReading f23_5), (.sensor, .idle), (.sensor, .idle),
   (.ota, .idle), (.ota, .idle),
   (.mqtt, .ofFlag true), (.mqtt, .ofFlag true), (.mqtt, .idle), (.mqtt, .idle),
   (.sensor, .idle), (.ota, .idle), (.sensor, .ofFlag true)]

/-- The first steps of `wifiTask` from the start: it finds `wifiConnected` false, calls
`reconnect()`, and `WiFi.status()` is `WL_CONNECTED`. -/
def wifiUpSchedule : List (TaskId × Input) :=
  [(.wifi, .idle), (.wifi, .ofFlag true)]

/-! ## Arithmetic of `uint32_t` -/

/-- The `uint32_t` difference is the integer difference reduced modulo `2 ^ 32`. -/
theorem u32sub_eq_emod (a b : Nat) :
    (u32sub a b : Int) = ((a : Int) - (b : Int)) % 2 ^ 32 := by
  unfold u32sub UINT32_MOD
  norm_num
  omega

/-- The interval of line 33, converted for the comparison of line 241, is 5000. -/
theorem toU32_interval : toU32 TELEMETRY_SEND_INTERVAL = 5000 := by
  decide

/-- The test of line 241 in terms of integers. -/
theorem sendDue_iff (now last : Nat) :
    sendDue now last = true ↔ ((now : Int) - (last : Int)) % 2 ^ 32 > 5000 := by
  unfold sendDue
  rw [decide_eq_true_iff, toU32_interval, ← u32sub_eq_emod]
  omega

/-! ## `sensorTask` -/

/-- When a send is due the trace of the cycle is the two reads, the publish body and
the new time stamp. -/
theorem sensorTaskCycle_due (g : Globals) (last : Nat) (e : SensorEnv)
    (hconn : g.mqttConnected = true) (hdue : sendDue e.millisCheck last = true) :
    sensorTaskCycle g last e =
      (e.millisStamp % UINT32_MOD,
        [.millis e.millisCheck, .readHumidity e.humidity, .readTemperature e.temperature]
          ++ sensorPublish e ++ [.millis e.millisStamp, .vTaskDelay 1000]) := by
  simp [sensorTaskCycle, hconn, hdue]

/-- When no send is due the cycle only reads the clock and sleeps. -/
theorem sensorTaskCycle_not_due (g : Globals) (last : Nat) (e : SensorEnv)
    (hconn : g.mqttConnected = true) (hdue : sendDue e.millisCheck last = false) :
    sensorTaskCycle g last e = (last, [.millis e.millisCheck, .vTaskDelay 1000]) := by
  simp [sensorTaskCycle, hconn, hdue]

/-- C1: in a `sensorTask` cycle with `mqttConnected` true and a send due, a NaN
humidity or temperature means no publish and no operation on `tbMutex`; two numbers
mean exactly: take, telemetry "temperature", telemetry "humidity", attribute "rssi",
give, in this order. -/
theorem sensorTask_publishes_iff_readings (g : Globals) (lastTelemetrySend : Nat)
    (e : SensorEnv) (hconn : g.mqttConnected = true)
    (hdue : sendDue e.millisCheck lastTelemetrySend = true) :
    ((isnan e.humidity = true ∨ isnan e.temperature = true) →
      lockAndPublish (sensorTaskCycle g lastTelemetrySend e).2 = []) ∧
    ((isnan e.humidity = false ∧ isnan e.temperature = false) →
      lockAndPublish (sensorTaskCycle g lastTelemetrySend e).2 =
        [.xSemaphoreTake,
         .sendTelemetryData "temperature" e.temperature e.sentTemperature,
         .sendTelemetryData "humidity" e.humidity e.sentHumidity,
         .sendAttributeData "rssi" e.rssi e.sentRssi,
         .xSemaphoreGive]) := by
  rw [sensorTaskCycle_due g lastTelemetrySend e hconn hdue]
  constructor
  · intro h
    have hn : (isnan e.humidity || isnan e.temperature) = true := by simpa using h
    simp [sensorPublish, hn, lockAndPublish, Event.isPublish, Event.isLockOp]
  · rintro ⟨h1, h2⟩
    simp [sensorPublish, h1, h2, lockAndPublish, Event.isPublish, Event.isLockOp,
      TEMPERATURE_KEY, HUMIDITY_KEY]

/-- C1 at the readings (23.5, 60.2): two telemetry points and one attribute point,
inside one take and give of the mutex; and at a NaN humidity: nothing. -/
theorem sensorTask_publishes_witness :
    (onlineGlobals.mqttConnected = true ∧ sendDue sampleSensorEnv.millisCheck 0 = true) ∧
    lockAndPublish (sensorTaskCycle onlineGlobals 0 sampleSensorEnv).2 =
      [.xSemaphoreTake, .sendTelemetryData "temperature" f23_5 true,
       .sendTelemetryData "humidity" f60_2 true, .sendAttributeData "rssi" (-61) true,
       .xSemaphoreGive] ∧
    lockAndPublish
      (sensorTaskCycle onlineGlobals 0 { sampleSensorEnv with humidity := fNaN }).2 = [] :=
  ⟨⟨rfl, by decide⟩,
   (sensorTask_publishes_iff_readings onlineGlobals 0 sampleSensorEnv rfl (by decide)).2
      ⟨by decide, by decide⟩,
   (sensorTask_publishes_iff_readings onlineGlobals 0
      { sampleSensorEnv with humidity := fNaN } rfl (by decide)).1 (Or.inl (by decide))⟩

/-- C10: in a `sensorTask` cycle with `mqttConnected` true, the sensor is read (a send
cycle) exactly when `(now - last) mod 2 ^ 32 > 5000`. A send cycle sets
`lastTelemetrySend` to the `millis()` of line 260 whatever the readings and the
results of the sends, so the next cycle is a send cycle exactly when more than
5000 ms (modulo `2 ^ 32`) have passed since that stamp. Every other cycle keeps
`lastTelemetrySend` and neither reads the sensor nor publishes. -/
theorem sensorTask_send_interval (g next_g : Globals) (lastTelemetrySend : Nat)
    (e next : SensorEnv) (hconn : g.mqttConnected = true)
    (hnext : next_g.mqttConnected = true) (hstamp : e.millisStamp < 2 ^ 32) :
    (sensorReads (sensorTaskCycle g lastTelemetrySend e).2 ≠ [] ↔
      ((e.millisCheck : Int) - (lastTelemetrySend : Int)) % 2 ^ 32 > 5000) ∧
    (((e.millisCheck : Int) - (lastTelemetrySend : Int)) % 2 ^ 32 > 5000 →
      (sensorTaskCycle g lastTelemetrySend e).1 = e.millisStamp ∧
      sensorReads (sensorTaskCycle g lastTelemetrySend e).2 =
        [.readHumidity e.humidity, .readTemperature e.temperature] ∧
      (sensorReads (sensorTaskCycle next_g (sensorTaskCycle g lastTelemetrySend e).1 next).2
          ≠ [] ↔
        ((next.millisCheck : Int) - (e.millisStamp : Int)) % 2 ^ 32 > 5000)) ∧
    (¬ ((e.millisCheck : Int) - (lastTelemetrySend : Int)) % 2 ^ 32 > 5000 →
      (sensorTaskCycle g lastTelemetrySend e).1 = lastTelemetrySend ∧
      sensorReads (sensorTaskCycle g lastTelemetrySend e).2 = [] ∧
      publishes (sensorTaskCycle g lastTelemetrySend e).2 = []) := by
  have key : ∀ (g0 : Globals) (l : Nat) (e0 : SensorEnv), g0.mqttConnected = true →
      (sensorReads (sensorTaskCycle g0 l e0).2 ≠ [] ↔ sendDue e0.millisCheck l = true) := by
    intro g0 l e0 h0
    cases hd : sendDue e0.millisCheck l
    · rw [sensorTaskCycle_not_due g0 l e0 h0 hd]
      simp [sensorReads, Event.isSensorRead]
    · rw [sensorTaskCycle_due g0 l e0 h0 hd]
      simp [sensorReads, Event.isSensorRead]
  have hmod : e.millisStamp % UINT32_MOD = e.millisStamp :=
    Nat.mod_eq_of_lt (by simpa [UINT32_MOD] using hstamp)
  refine ⟨?_, ?_, ?_⟩
  · rw [key g lastTelemetrySend e hconn, sendDue_iff]
  · intro hgt
    have hdue : sendDue e.millisCheck lastTelemetrySend = true := (sendDue_iff _ _).2 hgt
    have h1 : (sensorTaskCycle g lastTelemetrySend e).1 = e.millisStamp := by
      rw [sensorTaskCycle_due g lastTelemetrySend e hconn hdue]
      exact hmod
    refine ⟨h1, ?_, ?_⟩
    · rw [sensorTaskCycle_due g lastTelemetrySend e hconn hdue]
      by_cases hn : (isnan e.humidity || isnan e.temperature) = true
      · simp [sensorReads, sensorPublish, hn, Event.isSensorRead]
      · simp [sensorReads, sensorPublish, hn, Event.isSensorRead]
    · rw [h1, key next_g e.millisStamp next hnext, sendDue_iff]
  · intro hle
    have hdue : sendDue e.millisCheck lastTelemetrySend = false := by
      cases hd : sendDue e.millisCheck lastTelemetrySend
      · rfl
      · exact absurd ((sendDue_iff _ _).1 hd) hle
    rw [sensorTaskCycle_not_due g lastTelemetrySend e hconn hdue]
    simp [sensorReads, publishes, Event.isSensorRead, Event.isPublish]

/-- C10 across a wrap of `millis()`: with `lastTelemetrySend = 2 ^ 32 - 1000` and
`millis() = 4500` the difference is 5500, the sensor is read and the stamp taken. -/
theorem sensorTask_send_interval_witness :
    sensorReads (sensorTaskCycle onlineGlobals (2 ^ 32 - 1000)
        { sampleSensorEnv with millisCheck := 4500, millisStamp := 4510 }).2 ≠ [] ∧
    (sensorTaskCycle onlineGlobals (2 ^ 32 - 1000)
        { sampleSensorEnv with millisCheck := 4500, millisStamp := 4510 }).1 = 4510 :=
  have h := sensorTask_send_interval onlineGlobals onlineGlobals (2 ^ 32 - 1000)
    { sampleSensorEnv with millisCheck := 4500, millisStamp := 4510 } sampleSensorEnv
    rfl rfl (by norm_num)
  ⟨h.1.2 (by norm_num), (h.2.1 (by norm_num)).1⟩

/-! ## `mqttTask` and `otaTask` -/

/-- The `mqttTask` cycle that finds the session closed and opens it. -/
theorem mqttTaskCycle_reopen (g : Globals) (e : MqttEnv) (hwifi : g.wifiConnected = true)
    (hclosed : e.connected = false) (hopen : e.connectOk = true) :
    mqttTaskCycle g e =
      ((mqttSubscribe (mqttRequest { g with mqttConnected := true } e.requestOk).1
          e.subscribeOk).1,
        [.xSemaphoreTake, .tbConnected false, .serial connectingText,
          .tbConnect THINGSBOARD_SERVER TOKEN THINGSBOARD_PORT true]
          ++ (mqttRequest { g with mqttConnected := true } e.requestOk).2
          ++ (mqttSubscribe (mqttRequest { g with mqttConnected := true } e.requestOk).1
                e.subscribeOk).2
          ++ [.tbLoop, .xSemaphoreGive, .vTaskDelay 100]) := by
  simp [mqttTaskCycle, hwifi, hclosed, hopen]

/-- The `mqttTask` cycle that finds the session open. -/
theorem mqttTaskCycle_open (g : Globals) (e : MqttEnv) (hwifi : g.wifiConnected = true)
    (hopen : e.connected = true) :
    mqttTaskCycle g e =
      (g, [.xSemaphoreTake, .tbConnected true, .tbLoop, .xSemaphoreGive, .vTaskDelay 100]) := by
  simp [mqttTaskCycle, hwifi, hopen]

/-- No cycle of `mqttTask` writes the two firmware flags. -/
theorem mqttTaskCycle_keeps_firmware_flags (g : Globals) (e : MqttEnv) :
    (mqttTaskCycle g e).1.currentFWSent = g.currentFWSent ∧
    (mqttTaskCycle g e).1.updateRequestSent = g.updateRequestSent := by
  obtain ⟨sub, fw, upd, req, wifi, mqtt⟩ := g
  obtain ⟨conn, ok, rq, sb⟩ := e
  cases wifi <;> cases conn <;> cases ok <;> cases req <;> cases sub <;>
    exact ⟨rfl, rfl⟩

/-- C2, refuted as stated: with `Firmware_Send_Info` returning false (so `currentFWSent`
stays false) the same cycle still calls `Start_Firmware_Update` and then
`Subscribe_Firmware_Update`. -/
theorem otaTask_requests_without_announcement :
    otaCalls (otaTaskCycle onlineGlobals ⟨false, true, true⟩).2 =
      [.firmwareSendInfo "RTOTA" "2" false,
       .startFirmwareUpdate "RTOTA" "2" 12 4096 true,
       .subscribeFirmwareUpdate "RTOTA" "2" 12 4096 true] ∧
    (otaTaskCycle onlineGlobals ⟨false, true, true⟩).1.currentFWSent = false := by
  constructor <;> rfl

/-- C2, amended: the handshake calls of an `otaTask` cycle are, in this order,
`Firmware_Send_Info` exactly when `currentFWSent` was false, `Start_Firmware_Update`
exactly when `updateRequestSent` was false (whatever the announcement returned), and
`Subscribe_Firmware_Update` exactly when `Start_Firmware_Update` was called and
returned true in this cycle. -/
theorem otaTask_handshake_order (g : Globals) (e : OtaEnv) (hconn : g.mqttConnected = true) :
    otaCalls (otaTaskCycle g e).2 =
      (if g.currentFWSent then []
        else [.firmwareSendInfo CURRENT_FIRMWARE_TITLE CURRENT_FIRMWARE_VERSION e.sendInfoOk])
      ++ (if g.updateRequestSent then []
          else .startFirmwareUpdate CURRENT_FIRMWARE_TITLE CURRENT_FIRMWARE_VERSION
                  FIRMWARE_FAILURE_RETRIES FIRMWARE_PACKET_SIZE e.startOk ::
                (if e.startOk then
                  [.subscribeFirmwareUpdate CURRENT_FIRMWARE_TITLE CURRENT_FIRMWARE_VERSION
                    FIRMWARE_FAILURE_RETRIES FIRMWARE_PACKET_SIZE e.subscribeOk]
                 else [])) := by
  cases h1 : g.currentFWSent <;> cases h2 : g.updateRequestSent <;> cases h3 : e.startOk <;>
    simp [otaTaskCycle, otaSendInfo, otaRequest, otaCalls, Event.isOtaCall, hconn, h1, h2, h3]

/-- C2, amended, on a first cycle whose update request fails: announcement, then
request, and no subscription. -/
theorem otaTask_handshake_order_witness :
    otaCalls (otaTaskCycle onlineGlobals ⟨true, false, true⟩).2 =
      [.firmwareSendInfo "RTOTA" "2" true, .startFirmwareUpdate "RTOTA" "2" 12 4096 false] :=
  otaTask_handshake_order onlineGlobals ⟨true, false, true⟩ rfl

/-- C3, refuted as stated: a cycle that finds the session closed and reopens it, entered
with both attribute flags true, leaves both true and issues neither the request nor the
subscription. -/
theorem mqttTask_reconnect_keeps_flags :
    (mqttTaskCycle allSetGlobals ⟨false, true, true, true⟩).1.requestedShared = true ∧
    (mqttTaskCycle allSetGlobals ⟨false, true, true, true⟩).1.shared_update_subscribed = true ∧
    attributeCalls (mqttTaskCycle allSetGlobals ⟨false, true, true, true⟩).2 = [] := by
  refine ⟨rfl, rfl, rfl⟩

/-- C3, amended: in a cycle that finds the session closed and reopens it the attribute
flags are not reset. A flag that was true stays true and its call is not made; the
request is made exactly when `requestedShared` was false and the subscription exactly
when `shared_update_subscribed` was false, in this order; `requestedShared` ends as
its old value or the result of the request. -/
theorem mqttTask_reconnect_flags (g : Globals) (e : MqttEnv) (hwifi : g.wifiConnected = true)
    (hclosed : e.connected = false) (hopen : e.connectOk = true) :
    (mqttTaskCycle g e).1.requestedShared = (g.requestedShared || e.requestOk) ∧
    (g.shared_update_subscribed = true →
      (mqttTaskCycle g e).1.shared_update_subscribed = true) ∧
    attributeCalls (mqttTaskCycle g e).2 =
      (if g.requestedShared then [] else [.sharedAttributesRequest e.requestOk])
      ++ (if g.shared_update_subscribed then []
          else [.sharedAttributesSubscribe e.subscribeOk]) := by
  rw [mqttTaskCycle_reopen g e hwifi hclosed hopen]
  cases h1 : g.requestedShared <;> cases h2 : g.shared_update_subscribed <;>
    cases h3 : e.requestOk <;> cases h4 : e.subscribeOk <;>
    simp [mqttRequest, mqttSubscribe, attributeCalls, Event.isAttributeCall, h1, h2,
      connectingText]

/-- C3, amended, after a first failed request: the reconnecting cycle repeats the
request and not the subscription. -/
theorem mqttTask_reconnect_flags_witness :
    attributeCalls (mqttTaskCycle { allSetGlobals with requestedShared := false }
        ⟨false, true, true, true⟩).2 = [.sharedAttributesRequest true] ∧
    (mqttTaskCycle { allSetGlobals with requestedShared := false }
        ⟨false, true, true, true⟩).1.requestedShared = true :=
  have h := mqttTask_reconnect_flags { allSetGlobals with requestedShared := false }
    ⟨false, true, true, true⟩ rfl rfl rfl
  ⟨h.2.2, h.1⟩

/-- C4, refuted as stated: after the handshake is complete, the `mqttTask` cycle that
reopens the session leaves `currentFWSent` and `updateRequestSent` true, and the next
`otaTask` cycle makes no handshake call. -/
theorem firmware_flags_survive_reconnect :
    (mqttTaskCycle allSetGlobals ⟨false, true, true, true⟩).1.currentFWSent = true ∧
    (mqttTaskCycle allSetGlobals ⟨false, true, true, true⟩).1.updateRequestSent = true ∧
    otaCalls (otaTaskCycle (mqttTaskCycle allSetGlobals ⟨false, true, true, true⟩).1
      ⟨true, true, true⟩).2 = [] := by
  refine ⟨rfl, rfl, rfl⟩

/-- C4, amended: once `currentFWSent` and `updateRequestSent` are both true, an
`mqttTask` cycle that finds the session closed and reopens it leaves both true, and
the following `otaTask` cycle makes no handshake call and leaves both true: the
handshake is not redone. -/
theorem firmware_handshake_not_redone (g : Globals) (me : MqttEnv) (oe : OtaEnv)
    (hwifi : g.wifiConnected = true) (hinfo : g.currentFWSent = true)
    (hreq : g.updateRequestSent = true) (hclosed : me.connected = false)
    (hopen : me.connectOk = true) :
    (mqttTaskCycle g me).1.mqttConnected = true ∧
    (mqttTaskCycle g me).1.currentFWSent = true ∧
    (mqttTaskCycle g me).1.updateRequestSent = true ∧
    otaCalls (otaTaskCycle (mqttTaskCycle g me).1 oe).2 = [] ∧
    (otaTaskCycle (mqttTaskCycle g me).1 oe).1.currentFWSent = true ∧
    (otaTaskCycle (mqttTaskCycle g me).1 oe).1.updateRequestSent = true := by
  obtain ⟨k1, k2⟩ := mqttTaskCycle_keeps_firmware_flags g me
  rw [hinfo] at k1
  rw [hreq] at k2
  have hc : (mqttTaskCycle g me).1.mqttConnected = true := by
    rw [mqttTaskCycle_reopen g me hwifi hclosed hopen]
    cases h1 : g.requestedShared <;> cases h2 : g.shared_update_subscribed <;>
      simp [mqttRequest, mqttSubscribe, h1, h2]
  refine ⟨hc, k1, k2, ?_, ?_, ?_⟩ <;>
    simp [otaTaskCycle, otaSendInfo, otaRequest, otaCalls, Event.isOtaCall, hc, k1, k2]

/-- C4, amended, at the flags of a completed handshake. -/
theorem firmware_handshake_not_redone_witness :
    otaCalls (otaTaskCycle (mqttTaskCycle allSetGlobals ⟨false, true, false, false⟩).1
      ⟨false, false, false⟩).2 = [] :=
  (firmware_handshake_not_redone allSetGlobals ⟨false, true, false, false⟩
    ⟨false, false, false⟩ rfl rfl rfl rfl rfl).2.2.2.1

/-- C5, the code at the failing input, the first cycle of `mqttTask` that connects
(only `wifiConnected` is true, the state the machine is in after the first steps of
`wifiTask`): the subscription is attempted and returns false, the cycle prints the
failure and then "Subscribe done", and `shared_update_subscribed` is true after the
cycle, in the cycle function and in the machine alike; the next cycle, with the session
open, makes no subscription. -/
theorem mqttTask_subscribe_failure_sets_flag :
    mqttTaskCycle wifiUpGlobals failedSubscribeEnv =
      ({ shared_update_subscribed := true, currentFWSent := false,
         updateRequestSent := false, requestedShared := true, wifiConnected := true,
         mqttConnected := true },
        [.xSemaphoreTake, .tbConnected false, .serial connectingText,
         .tbConnect "app.coreiot.io" "wKVmVLxdNixrgQkwzEup" 1883 true,
         .serial "Requesting shared attributes...",
         .sharedAttributesRequest true,
         .serial "Subscribing for shared attribute updates...",
         .sharedAttributesSubscribe false,
         .serial "Failed to subscribe for shared attribute updates",
         .serial "Subscribe done",
         .tbLoop, .xSemaphoreGive, .vTaskDelay 100]) ∧
    attributeCalls (mqttTaskCycle (mqttTaskCycle wifiUpGlobals failedSubscribeEnv).1
      ⟨true, true, true, true⟩).2 = [] ∧
    (run Sys.start wifiUpSchedule).g = wifiUpGlobals ∧
    (run Sys.start wifiUpSchedule).mqttPc = .loopHead ∧
    (run Sys.start wifiUpSchedule).mutex = { free := true, holders := [] } ∧
    (runSolo .mqtt (run Sys.start wifiUpSchedule)
        (mqttInputs wifiUpGlobals failedSubscribeEnv)).map
      (fun r => (r.1.g.shared_update_subscribed, r.2)) =
      some (true, (mqttTaskCycle wifiUpGlobals failedSubscribeEnv).2) := by
  refine ⟨rfl, rfl, rfl, rfl, rfl, rfl⟩

/-- C6, refuted as stated: the request fails in a first cycle; in the next cycle, with
`wifiConnected` true, the session open and `requestedShared` still false, no request is
made. -/
theorem mqttTask_request_not_retried :
    (mqttTaskCycle { onlineGlobals with mqttConnected := false }
        ⟨false, true, false, true⟩).1.requestedShared = false ∧
    (mqttTaskCycle { onlineGlobals with mqttConnected := false }
        ⟨false, true, false, true⟩).1.wifiConnected = true ∧
    requestCalls (mqttTaskCycle
        (mqttTaskCycle { onlineGlobals with mqttConnected := false }
          ⟨false, true, false, true⟩).1
        ⟨true, true, true, true⟩).2 = [] ∧
    (mqttTaskCycle
        (mqttTaskCycle { onlineGlobals with mqttConnected := false }
          ⟨false, true, false, true⟩).1
        ⟨true, true, true, true⟩).1.requestedShared = false := by
  refine ⟨rfl, rfl, rfl, rfl⟩

/-- C6, amended: a cycle with `wifiConnected` true that finds the session closed and
reopens it, entered with `requestedShared` false, makes the request exactly once and
`requestedShared` ends as the result of the send, so a failed send leaves it false. A
cycle that finds the session open, or whose `tb.connect` fails, makes no request and
leaves `requestedShared` false: the request is repeated only by a later cycle that
reopens the session. -/
theorem mqttTask_request_on_reconnect (g : Globals) (e : MqttEnv)
    (hwifi : g.wifiConnected = true) (hflag : g.requestedShared = false) :
    (e.connected = false → e.connectOk = true →
      requestCalls (mqttTaskCycle g e).2 = [.sharedAttributesRequest e.requestOk] ∧
      (mqttTaskCycle g e).1.requestedShared = e.requestOk) ∧
    (e.connected = true →
      requestCalls (mqttTaskCycle g e).2 = [] ∧
      (mqttTaskCycle g e).1.requestedShared = false) ∧
    (e.connected = false → e.connectOk = false →
      requestCalls (mqttTaskCycle g e).2 = [] ∧
      (mqttTaskCycle g e).1.requestedShared = false) := by
  refine ⟨?_, ?_, ?_⟩
  · intro hclosed hopen
    rw [mqttTaskCycle_reopen g e hwifi hclosed hopen]
    cases h2 : g.shared_update_subscribed <;> cases h3 : e.requestOk <;>
      cases h4 : e.subscribeOk <;>
      simp [mqttRequest, mqttSubscribe, requestCalls, Event.isAttributeRequest, hflag, h2,
        connectingText]
  · intro hopen
    rw [mqttTaskCycle_open g e hwifi hopen]
    simp [requestCalls, Event.isAttributeRequest, hflag]
  · intro hclosed hfail
    simp [mqttTaskCycle, hwifi, hclosed, hfail, requestCalls, Event.isAttributeRequest, hflag]

/-- C6, amended, at a failing request: one request, flag false afterwards, and no
request in a cycle that finds the session open. -/
theorem mqttTask_request_on_reconnect_witness :
    (onlineGlobals.wifiConnected = true ∧ onlineGlobals.requestedShared = false) ∧
    requestCalls (mqttTaskCycle onlineGlobals ⟨false, true, false, true⟩).2 =
      [.sharedAttributesRequest false] ∧
    (mqttTaskCycle onlineGlobals ⟨false, true, false, true⟩).1.requestedShared = false ∧
    requestCalls (mqttTaskCycle onlineGlobals ⟨true, true, true, true⟩).2 = [] :=
  have h := mqttTask_request_on_reconnect onlineGlobals ⟨false, true, false, true⟩ rfl rfl
  have k := mqttTask_request_on_reconnect onlineGlobals ⟨true, true, true, true⟩ rfl rfl
  ⟨⟨rfl, rfl⟩, (h.1 rfl rfl).1, (h.1 rfl rfl).2, (k.2.1 rfl).1⟩

/-! ## The mutex invariant of the interleaved machine -/

/-- The tasks in their critical section, task by task. -/
theorem criticalTasks_eq (s : Sys) :
    criticalTasks s =
      (if s.mqttPc.critical then [TaskId.mqtt] else [])
        ++ (if s.sensorPc.critical then [TaskId.sensor] else [])
        ++ (if s.otaPc.critical then [TaskId.ota] else []) := by
  cases h1 : s.mqttPc.critical <;> cases h2 : s.sensorPc.critical <;>
    cases h3 : s.otaPc.critical <;> simp [criticalTasks, inCritical, List.filter, h1, h2, h3]

/-- The invariant holds when the scheduler starts. -/
theorem mutexInv_start : MutexInv Sys.start := by
  simp [MutexInv, criticalTasks_eq, Sys.start, MqttPc.critical, SensorPc.critical,
    OtaPc.critical]

/-- A step of `wifiTask` keeps the invariant and makes no call on the session. -/
theorem wifiStep_inv (s : Sys) (i : Input) (hinv : MutexInv s) :
    MutexInv (wifiStep s i).1 ∧ ∀ ev ∈ (wifiStep s i).2, ev.isSessionCall = false := by
  obtain ⟨g, ⟨free, holders⟩, last, hum, temp, wpc, mpc, spc, opc⟩ := s
  simp only [MutexInv, criticalTasks_eq] at hinv ⊢
  cases wpc <;> cases hf : i.flag <;> cases hw : g.wifiConnected <;>
    simp_all [wifiStep, Event.isSessionCall]

/-- A step of `mqttTask` keeps the invariant, and a step that calls the session is made
while `mqttTask` is the one holder of the mutex. -/
theorem mqttStep_inv (s : Sys) (i : Input) (r : Sys × List Event)
    (h : mqttStep s i = some r) (hinv : MutexInv s) :
    MutexInv r.1 ∧ ∀ ev ∈ r.2, ev.isSessionCall = true → s.mutex.holders = [TaskId.mqtt] := by
  obtain ⟨g, ⟨free, holders⟩, last, hum, temp, wpc, mpc, spc, opc⟩ := s
  simp only [MutexInv, criticalTasks_eq] at hinv
  cases mpc <;> cases free <;> simp only [mqttStep, Mutex.take, Mutex.give] at h
  all_goals try (split at h)
  all_goals try (simp only [Option.some.injEq, reduceCtorEq, if_true, if_false] at h)
  all_goals try (subst h)
  all_goals
    simp only [MutexInv, criticalTasks_eq]
    generalize spc.critical = a at hinv ⊢
    generalize opc.critical = b at hinv ⊢
    cases a <;> cases b <;> simp [MqttPc.critical] at hinv ⊢
  all_goals try subst hinv
  all_goals try simp at *
  all_goals try subst_vars
  all_goals try simp_all [Event.isSessionCall]

/-- A step of `sensorTask` keeps the invariant, and a step that calls the session is
made while `sensorTask` is the one holder of the mutex. -/
theorem sensorStep_inv (s : Sys) (i : Input) (r : Sys × List Event)
    (h : sensorStep s i = some r) (hinv : MutexInv s) :
    MutexInv r.1 ∧
      ∀ ev ∈ r.2, ev.isSessionCall = true → s.mutex.holders = [TaskId.sensor] := by
  obtain ⟨g, ⟨free, holders⟩, last, hum, temp, wpc, mpc, spc, opc⟩ := s
  simp only [MutexInv, criticalTasks_eq] at hinv
  cases spc <;> cases free <;> simp only [sensorStep, Mutex.take, Mutex.give] at h
  all_goals try (split at h)
  all_goals try (simp only [Option.some.injEq, reduceCtorEq, if_true, if_false] at h)
  all_goals try (subst h)
  all_goals
    simp only [MutexInv, criticalTasks_eq]
    generalize mpc.critical = a at hinv ⊢
    generalize opc.critical = b at hinv ⊢
    cases a <;> cases b <;> simp [SensorPc.critical] at hinv ⊢
  all_goals try subst hinv
  all_goals try simp at *
  all_goals try subst_vars
  all_goals try simp_all [Event.isSessionCall]

/-- A step of `otaTask` keeps the invariant, and a step that calls the session is made
while `otaTask` is the one holder of the mutex. -/
theorem otaStep_inv (s : Sys) (i : Input) (r : Sys × List Event)
    (h : otaStep s i = some r) (hinv : MutexInv s) :
    MutexInv r.1 ∧ ∀ ev ∈ r.2, ev.isSessionCall = true → s.mutex.holders = [TaskId.ota] := by
  obtain ⟨g, ⟨free, holders⟩, last, hum, temp, wpc, mpc, spc, opc⟩ := s
  simp only [MutexInv, criticalTasks_eq] at hinv
  cases opc <;> cases free <;> simp only [otaStep, Mutex.take, Mutex.give] at h
  all_goals try (split at h)
  all_goals try (simp only [Option.some.injEq, reduceCtorEq, if_true, if_false] at h)
  all_goals try (subst h)
  all_goals
    simp only [MutexInv, criticalTasks_eq]
    generalize mpc.critical = a at hinv ⊢
    generalize spc.critical = b at hinv ⊢
    cases a <;> cases b <;> simp [OtaPc.critical] at hinv ⊢
  all_goals try subst hinv
  all_goals try simp at *
  all_goals try subst_vars
  all_goals try simp_all [Event.isSessionCall]
  cases i.flag <;> simp

/-- Every step keeps the invariant, and a step that calls the session is made by the
one holder of the mutex. -/
theorem step_inv (s : Sys) (t : TaskId) (i : Input) (r : Sys × List Event)
    (h : step s t i = some r) (hinv : MutexInv s) :
    MutexInv r.1 ∧ ∀ ev ∈ r.2, ev.isSessionCall = true → s.mutex.holders = [t] := by
  cases t
  · simp only [step, Option.some.injEq] at h
    subst h
    refine ⟨(wifiStep_inv s i hinv).1, ?_⟩
    intro ev hev hcall
    rw [(wifiStep_inv s i hinv).2 ev hev] at hcall
    exact absurd hcall (by decide)
  · exact mqttStep_inv s i r h hinv
  · exact sensorStep_inv s i r h hinv
  · exact otaStep_inv s i r h hinv

/-- The invariant holds after every schedule. -/
theorem run_inv (sched : List (TaskId × Input)) (s : Sys) (hinv : MutexInv s) :
    MutexInv (run s sched) := by
  induction sched generalizing s with
  | nil => exact hinv
  | cons head rest ih =>
    obtain ⟨t, i⟩ := head
    simp only [run]
    cases h : step s t i with
    | none => exact ih s hinv
    | some r => exact ih r.1 (step_inv s t i r h hinv).1

/-- Replaying two traces in sequence. -/
theorem serialized_append (h : Option TaskId) (xs ys : List (TaskId × Event)) :
    serialized h (xs ++ ys) = (serialized h xs).bind (fun h2 => serialized h2 ys) := by
  induction xs generalizing h with
  | nil => rfl
  | cons x rest ih =>
    obtain ⟨t, ev⟩ := x
    simp only [List.cons_append, serialized]
    split
    · split
      · exact ih _
      · rfl
    · split
      · split
        · exact ih _
        · rfl
      · split
        · split
          · exact ih _
          · rfl
        · exact ih _

/-- The calls of a step of `mqttTask` replay against the holder of the mutex. -/
theorem mqttStep_serialized (s : Sys) (i : Input) (r : Sys × List Event)
    (h : mqttStep s i = some r) (hinv : MutexInv s) :
    serialized s.mutex.holders.head? (r.2.map (fun ev => (TaskId.mqtt, ev))) =
      some r.1.mutex.holders.head? := by
  obtain ⟨g, ⟨free, holders⟩, last, hum, temp, wpc, mpc, spc, opc⟩ := s
  simp only [MutexInv, criticalTasks_eq] at hinv
  cases mpc <;> cases free <;> simp only [mqttStep, Mutex.take, Mutex.give] at h
  all_goals try (split at h)
  all_goals try (simp only [Option.some.injEq, reduceCtorEq, if_true, if_false] at h)
  all_goals try (subst h)
  all_goals
    generalize spc.critical = a at hinv ⊢
    generalize opc.critical = b at hinv ⊢
    cases a <;> cases b <;> simp [MqttPc.critical] at hinv ⊢
  all_goals try subst hinv
  all_goals try simp at *
  all_goals try subst_vars
  all_goals try simp_all [serialized, Event.isSessionCall, Event.isTake, Event.isGive]
  all_goals
    cases hq : g.requestedShared <;> cases hs : g.shared_update_subscribed <;>
      cases hf : i.flag <;>
      simp [mqttRequest, mqttSubscribe, serialized, Event.isSessionCall, Event.isTake,
        Event.isGive, hq, hs]

/-- The calls of a step of `sensorTask` replay against the holder of the mutex. -/
theorem sensorStep_serialized (s : Sys) (i : Input) (r : Sys × List Event)
    (h : sensorStep s i = some r) (hinv : MutexInv s) :
    serialized s.mutex.holders.head? (r.2.map (fun ev => (TaskId.sensor, ev))) =
      some r.1.mutex.holders.head? := by
  obtain ⟨g, ⟨free, holders⟩, last, hum, temp, wpc, mpc, spc, opc⟩ := s
  simp only [MutexInv, criticalTasks_eq] at hinv
  cases spc <;> cases free <;> simp only [sensorStep, Mutex.take, Mutex.give] at h
  all_goals try (split at h)
  all_goals try (simp only [Option.some.injEq, reduceCtorEq, if_true, if_false] at h)
  all_goals try (subst h)
  all_goals
    generalize mpc.critical = a at hinv ⊢
    generalize opc.critical = b at hinv ⊢
    cases a <;> cases b <;> simp [SensorPc.critical] at hinv ⊢
  all_goals try subst hinv
  all_goals try simp at *
  all_goals try subst_vars
  all_goals try simp_all [serialized, Event.isSessionCall, Event.isTake, Event.isGive]


/-- The calls of a step of `otaTask` replay against the holder of the mutex. -/
theorem otaStep_serialized (s : Sys) (i : Input) (r : Sys × List Event)
    (h : otaStep s i = some r) (hinv : MutexInv s) :
    serialized s.mutex.holders.head? (r.2.map (fun ev => (TaskId.ota, ev))) =
      some r.1.mutex.holders.head? := by
  obtain ⟨g, ⟨free, holders⟩, last, hum, temp, wpc, mpc, spc, opc⟩ := s
  simp only [MutexInv, criticalTasks_eq] at hinv
  cases opc <;> cases free <;> simp only [otaStep, Mutex.take, Mutex.give] at h
  all_goals try (split at h)
  all_goals try (simp only [Option.some.injEq, reduceCtorEq, if_true, if_false] at h)
  all_goals try (subst h)
  all_goals
    generalize mpc.critical = a at hinv ⊢
    generalize spc.critical = b at hinv ⊢
    cases a <;> cases b <;> simp [OtaPc.critical] at hinv ⊢
  all_goals try subst hinv
  all_goals try simp at *
  all_goals try subst_vars
  all_goals try simp_all [serialized, Event.isSessionCall, Event.isTake, Event.isGive]
  all_goals
    cases hc : g.currentFWSent <;> cases hf : i.flag <;>
      simp [otaSendInfo, serialized, Event.isSessionCall, Event.isTake, Event.isGive, hc]

/-- The calls of a step of `wifiTask` replay against the holder of the mutex. -/
theorem wifiStep_serialized (s : Sys) (i : Input) (h : Option TaskId) :
    serialized h ((wifiStep s i).2.map (fun ev => (TaskId.wifi, ev))) = some h ∧
    (wifiStep s i).1.mutex = s.mutex := by
  cases hpc : s.wifiPc <;> cases hf : i.flag <;>
    simp [wifiStep, hpc, hf, serialized, Event.isSessionCall, Event.isTake, Event.isGive]

/-- The calls of any step replay against the holder of the mutex. -/
theorem step_serialized (s : Sys) (t : TaskId) (i : Input) (r : Sys × List Event)
    (h : step s t i = some r) (hinv : MutexInv s) :
    serialized s.mutex.holders.head? (r.2.map (fun ev => (t, ev))) =
      some r.1.mutex.holders.head? := by
  cases t
  · simp only [step, Option.some.injEq] at h
    subst h
    rw [(wifiStep_serialized s i none).2]
    exact (wifiStep_serialized s i _).1
  · exact mqttStep_serialized s i r h hinv
  · exact sensorStep_serialized s i r h hinv
  · exact otaStep_serialized s i r h hinv

/-- The calls of every schedule replay against the holder of the mutex. -/
theorem runTrace_serialized (sched : List (TaskId × Input)) (s : Sys) (hinv : MutexInv s) :
    serialized s.mutex.holders.head? (runTrace s sched) =
      some (run s sched).mutex.holders.head? := by
  induction sched generalizing s with
  | nil => rfl
  | cons head rest ih =>
    obtain ⟨t, i⟩ := head
    simp only [run, runTrace]
    cases h : step s t i with
    | none => exact ih s hinv
    | some r =>
      simp only [serialized_append, step_serialized s t i r h hinv, Option.bind]
      exact ih r.1 (step_inv s t i r h hinv).1

/-- In the sample schedule `sensorTask` and `otaTask` wait while `mqttTask` holds the
mutex; at the end `sensorTask` is the holder and a step of `otaTask` is blocked. -/
theorem sampleSchedule_blocks :
    (run Sys.start sampleSchedule).mutex = { free := false, holders := [TaskId.sensor] } ∧
    (run Sys.start sampleSchedule).sensorPc = .sendHumidity ∧
    (run Sys.start sampleSchedule).otaPc = .take ∧
    step (run Sys.start sampleSchedule) .ota .idle = none := by
  refine ⟨rfl, rfl, rfl, rfl⟩

/-- C8: after every schedule of the four tasks from the start state, at most one task
holds `tbMutex` (at most one task is between its take and its give, and the mutex lists
at most one holder); whichever step runs next, a call on the shared session object
(`tb.*`, the attribute request and subscription, `ota.*`) is made only by the task that
is the holder of the mutex; and the calls made along the schedule replay as a
sequence of critical sections: no take while the mutex is held, every give and every
call on the session object by the holder. -/
theorem mutual_exclusion (sched : List (TaskId × Input)) :
    (run Sys.start sched).mutex.holders.length ≤ 1 ∧
    (∀ t u : TaskId, inCritical (run Sys.start sched) t = true →
      inCritical (run Sys.start sched) u = true → t = u) ∧
    (∀ (t : TaskId) (i : Input) (r : Sys × List Event),
      step (run Sys.start sched) t i = some r →
      ∀ ev ∈ r.2, ev.isSessionCall = true →
        (run Sys.start sched).mutex.holders = [t] ∧
          inCritical (run Sys.start sched) t = true) ∧
    serialized none (runTrace Sys.start sched) =
      some (run Sys.start sched).mutex.holders.head? := by
  have htrace := runTrace_serialized sched Sys.start mutexInv_start
  have hinv := run_inv sched Sys.start mutexInv_start
  generalize run Sys.start sched = s at hinv htrace
  have hcrit : ∀ t : TaskId, inCritical s t = true ↔ t ∈ criticalTasks s := by
    intro t
    cases t <;> simp [criticalTasks, inCritical]
  obtain ⟨hh, hfree, hlen⟩ := hinv
  have hone : ∀ t u : TaskId, t ∈ criticalTasks s → u ∈ criticalTasks s → t = u := by
    intro t u ht hu
    match hc : criticalTasks s, ht, hu, hlen with
    | [], ht, _, _ => simp at ht
    | [x], ht, hu, _ =>
      simp only [List.mem_singleton] at ht hu
      rw [ht, hu]
    | _ :: _ :: _, _, _, hlen => simp at hlen
  refine ⟨by rw [hh]; exact hlen, ?_, ?_, htrace⟩
  · intro t u ht hu
    exact hone t u ((hcrit t).1 ht) ((hcrit u).1 hu)
  · intro t i r hstep ev hev hcall
    have hold := (step_inv s t i r hstep ⟨hh, hfree, hlen⟩).2 ev hev hcall
    refine ⟨hold, (hcrit t).2 ?_⟩
    rw [← hh, hold]
    exact List.mem_singleton.2 rfl

/-- C7: every cycle of `mqttTask`, `sensorTask` and `otaTask`, entered without the
mutex, takes it at most once, gives it exactly as often as it took it, never reaches a
`vTaskDelay` while holding it and ends in a `vTaskDelay`. In the `mqttTask` cycle whose
`tb.connect` fails, the give comes right before the 5000 ms delay that ends the cycle
and `tb.loop()` is not called. -/
theorem cycles_release_mutex (g : Globals) (lastTelemetrySend : Nat) (me : MqttEnv)
    (se : SensorEnv) (oe : OtaEnv) :
    LockDiscipline (mqttTaskCycle g me).2 ∧
    LockDiscipline (sensorTaskCycle g lastTelemetrySend se).2 ∧
    LockDiscipline (otaTaskCycle g oe).2 ∧
    (g.wifiConnected = true → me.connected = false → me.connectOk = false →
      (mqttTaskCycle g me).2 =
        [.xSemaphoreTake, .tbConnected false, .serial connectingText,
         .tbConnect THINGSBOARD_SERVER TOKEN THINGSBOARD_PORT false,
         .serial "Failed to connect to MQTT", .xSemaphoreGive, .vTaskDelay 5000] ∧
      Event.tbLoop ∉ (mqttTaskCycle g me).2) := by
  refine ⟨?_, ?_, ?_, ?_⟩
  · obtain ⟨sub, fw, upd, req, wifi, mqtt⟩ := g
    obtain ⟨conn, ok, rq, sb⟩ := me
    cases wifi <;> cases conn <;> cases ok <;> cases req <;> cases sub <;> cases rq <;>
      cases sb <;> exact ⟨rfl, Nat.le_of_ble_eq_true rfl, rfl, rfl⟩
  · cases h1 : g.mqttConnected <;> cases h2 : sendDue se.millisCheck lastTelemetrySend <;>
      cases h3 : isnan se.humidity <;> cases h4 : isnan se.temperature <;>
      simp [LockDiscipline, sensorTaskCycle, sensorPublish, h1, h2, h3, h4, lockReplay, takes,
        gives, endsInTaskDelay, Event.isTake, Event.isGive]
  · obtain ⟨sub, fw, upd, req, wifi, mqtt⟩ := g
    obtain ⟨info, st, sb⟩ := oe
    cases mqtt <;> cases fw <;> cases upd <;> cases st <;>
      exact ⟨rfl, Nat.le_of_ble_eq_true rfl, rfl, rfl⟩
  · intro hwifi hclosed hfail
    simp [mqttTaskCycle, hwifi, hclosed, hfail]

/-- C7 at a failing `tb.connect`: take, the failed connect, give, then the 5000 ms
delay. -/
theorem cycles_release_mutex_witness :
    (mqttTaskCycle onlineGlobals ⟨false, false, true, true⟩).2 =
      [.xSemaphoreTake, .tbConnected false, .serial connectingText,
       .tbConnect THINGSBOARD_SERVER TOKEN THINGSBOARD_PORT false,
       .serial "Failed to connect to MQTT", .xSemaphoreGive, .vTaskDelay 5000] ∧
    lockReplay false (mqttTaskCycle onlineGlobals ⟨false, false, true, true⟩).2 = some false :=
  have h := cycles_release_mutex onlineGlobals 0 ⟨false, false, true, true⟩ sampleSensorEnv
    ⟨true, true, true⟩
  ⟨(h.2.2.2 rfl rfl rfl).1, h.1.1⟩

/-- C9: `finished_callback(true)` calls `esp_restart` exactly once and
`finished_callback(false)` never; no other callback, neither `setup` nor `loop`, no
cycle of a task and no step of the four tasks (with `reconnect` and `InitWiFi`) calls
it. -/
theorem restart_only_on_success :
    restarts (finished_callback true) = 1 ∧
    restarts (finished_callback false) = 0 ∧
    restarts requestTimedOut = 0 ∧
    restarts update_starting_callback = 0 ∧
    restarts setup = 0 ∧
    restarts loop = 0 ∧
    (∀ current total : Nat, restarts (progress_callback current total) = 0) ∧
    (∀ data : String, restarts (processSharedAttributeUpdate data) = 0) ∧
    (∀ data : String, restarts (processSharedAttributeRequest data) = 0) ∧
    (∀ (s : Sys) (t : TaskId) (i : Input) (r : Sys × List Event),
      step s t i = some r → restarts r.2 = 0) ∧
    (∀ (g : Globals) (e : MqttEnv), restarts (mqttTaskCycle g e).2 = 0) ∧
    (∀ (g : Globals) (last : Nat) (e : SensorEnv), restarts (sensorTaskCycle g last e).2 = 0) ∧
    (∀ (g : Globals) (e : OtaEnv), restarts (otaTaskCycle g e).2 = 0) := by
  refine ⟨rfl, rfl, rfl, rfl, rfl, rfl, fun _ _ => rfl, fun _ => rfl, fun _ => rfl,
    ?_, ?_, ?_, ?_⟩
  · intro s t i r h
    cases t
    · simp only [step, Option.some.injEq] at h
      subst h
      cases hpc : s.wifiPc <;> cases hf : i.flag <;>
        simp [wifiStep, hpc, hf, restarts, Event.isRestart]
    · cases hpc : s.mqttPc <;> cases hfree : s.mutex.free <;> cases hf : i.flag <;>
        cases hr : s.g.requestedShared <;> cases hs : s.g.shared_update_subscribed <;>
        simp [step, mqttStep, Mutex.take, mqttRequest, mqttSubscribe, hpc, hfree, hf, hr,
          hs] at h <;>
        subst h <;> simp [restarts, Event.isRestart]
    · cases hpc : s.sensorPc <;> cases hfree : s.mutex.free <;>
        cases hn : (isnan s.humidity || isnan i.reading) <;>
        simp [step, sensorStep, Mutex.take, hpc, hfree, hn] at h <;>
        subst h <;> simp [restarts, Event.isRestart]
    · cases hpc : s.otaPc <;> cases hfree : s.mutex.free <;>
        cases hc : s.g.currentFWSent <;> cases hu : s.g.updateRequestSent <;>
        simp [step, otaStep, Mutex.take, otaSendInfo, hpc, hfree, hc, hu] at h <;>
        subst h <;> simp [restarts, Event.isRestart]
  · intro g e
    obtain ⟨sub, fw, upd, req, wifi, mqtt⟩ := g
    obtain ⟨conn, ok, rq, sb⟩ := e
    cases wifi <;> cases conn <;> cases ok <;> cases req <;> cases sub <;> cases rq <;>
      cases sb <;> rfl
  · intro g last e
    cases h1 : g.mqttConnected <;> cases h2 : sendDue e.millisCheck last <;>
      cases h3 : (isnan e.humidity || isnan e.temperature) <;>
      simp [sensorTaskCycle, sensorPublish, h1, h2, h3, restarts, Event.isRestart]
  · intro g e
    obtain ⟨sub, fw, upd, req, wifi, mqtt⟩ := g
    obtain ⟨info, st, sb⟩ := e
    cases mqtt <;> cases fw <;> cases upd <;> cases st <;> rfl

/-! ## The cycles are the cycles of the machine -/

/-- Run alone from the head of its loop with the mutex free, `mqttTask` in the machine
makes the calls of `mqttTaskCycle`, ends with its flags, back at the head of the loop
with the mutex as before. -/
theorem mqtt_machine_cycle (s : Sys) (e : MqttEnv) (hpc : s.mqttPc = .loopHead)
    (hfree : s.mutex.free = true) :
    runSolo .mqtt s (mqttInputs s.g e) =
      some ({ s with g := (mqttTaskCycle s.g e).1 }, (mqttTaskCycle s.g e).2) := by
  obtain ⟨⟨sub, fw, upd, req, wifi, mqtt⟩, ⟨free, holders⟩, last, hum, temp, wpc, mpc, spc,
    opc⟩ := s
  obtain ⟨conn, ok, rq, sb⟩ := e
  simp only at hpc hfree
  subst hpc hfree
  cases wifi <;> cases conn <;> cases ok <;> cases req <;> cases sub <;> cases rq <;>
    cases sb <;>
    simp [runSolo, step, mqttStep, mqttInputs, mqttTaskCycle, mqttRequest, mqttSubscribe,
      Mutex.take, Mutex.give, Input.ofFlag, Input.idle]

/-- Run alone from the head of its loop with the mutex free, `sensorTask` in the
machine makes the calls of `sensorTaskCycle` and ends with its `lastTelemetrySend`, back
at the head of the loop with the flags and the mutex as before. -/
theorem sensor_machine_cycle (s : Sys) (e : SensorEnv) (hpc : s.sensorPc = .loopHead)
    (hfree : s.mutex.free = true) :
    ∃ s2 : Sys,
      runSolo .sensor s (sensorInputs s.g s.lastTelemetrySend e) =
        some (s2, (sensorTaskCycle s.g s.lastTelemetrySend e).2) ∧
      s2.lastTelemetrySend = (sensorTaskCycle s.g s.lastTelemetrySend e).1 ∧
      s2.g = s.g ∧ s2.mutex = s.mutex ∧ s2.sensorPc = .loopHead := by
  obtain ⟨g, ⟨free, holders⟩, last, hum, temp, wpc, mpc, spc, opc⟩ := s
  simp only at hpc hfree
  subst hpc hfree
  cases h1 : g.mqttConnected <;> cases h2 : sendDue e.millisCheck last <;>
    cases h3 : isnan e.humidity <;> cases h4 : isnan e.temperature <;>
    simp [runSolo, step, sensorStep, sensorInputs, sensorTaskCycle, sensorPublish,
      Mutex.take, Mutex.give, Input.ofFlag, Input.ofTime, Input.ofReading, Input.idle,
      h1, h2, h3, h4]

/-- Run alone from the head of its loop with the mutex free, `otaTask` in the machine
makes the calls of `otaTaskCycle`, ends with its flags, back at the head of the loop
with the mutex as before. -/
theorem ota_machine_cycle (s : Sys) (e : OtaEnv) (hpc : s.otaPc = .loopHead)
    (hfree : s.mutex.free = true) :
    runSolo .ota s (otaInputs s.g e) =
      some ({ s with g := (otaTaskCycle s.g e).1 }, (otaTaskCycle s.g e).2) := by
  obtain ⟨⟨sub, fw, upd, req, wifi, mqtt⟩, ⟨free, holders⟩, last, hum, temp, wpc, mpc, spc,
    opc⟩ := s
  obtain ⟨info, st, sb⟩ := e
  simp only at hpc hfree
  subst hpc hfree
  cases mqtt <;> cases fw <;> cases upd <;> cases st <;>
    simp [runSolo, step, otaStep, otaInputs, otaTaskCycle, otaSendInfo, otaRequest,
      Mutex.take, Mutex.give, Input.ofFlag, Input.idle]

end OtaLab
